import Mathlib

/-
Shallow embedding of the Flappy Bird game source (src/flappy.py) and proofs
about it.  Python ints are modelled as Int, Python floats as exact rationals
(no claim below depends on binary rounding of floats), pygame rectangles as a
record of four Int fields, and the randomized draws and clock reads of one
pass through the loop as an explicit Env record.  Python floor division and
the pygame C truncating division only ever occur here on nonnegative even
operands, where they agree with Int division.
-/

-- screen dimensions (flappy.py lines 462-464).  The horizontal size is the
-- module-level constant called length (1940) and the vertical size is the
-- constant called width (1200): set_mode((length, width)).
def length : Int := 1940

def width : Int := 1200

-- pipe parameters (flappy.py lines 466-472)
def PIPE_WIDTH : Int := 100

def PIPE_HEIGHT : Int := 600

def PIPE_GAP : Int := 220

def PIPE_SPEED : Int := 7

/-- Truncation toward zero, as pygame applies when a Python float is assigned
to an integer rect coordinate. -/
def ratTrunc (q : ℚ) : Int :=
  q.num.sign * Int.ofNat (q.num.natAbs / q.den)

/-- A pygame.Rect: x, y, w, h stored as machine integers. -/
structure Rect where
  x : Int
  y : Int
  w : Int
  h : Int
deriving DecidableEq

/-- rect.centerx = x + w // 2 (pygame stores x,y,w,h and derives the center). -/
def Rect.centerx (r : Rect) : Int := r.x + r.w / 2

/-- rect.centery = y + h // 2. -/
def Rect.centery (r : Rect) : Int := r.y + r.h / 2

/-- Assigning rect.center = (cx, cy): pygame moves the rect so that its
center becomes the given point, x = cx - w // 2, y = cy - h // 2. -/
def Rect.setCenter (r : Rect) (cx cy : Int) : Rect :=
  { r with x := cx - r.w / 2, y := cy - r.h / 2 }

/-- pygame Rect.colliderect for rects of positive size: overlap is strict on
both axes, rects that merely touch along an edge do not collide. -/
def collideRect (a b : Rect) : Bool :=
  decide (a.x < b.x + b.w) && decide (b.x < a.x + a.w) &&
  decide (a.y < b.y + b.h) && decide (b.y < a.y + a.h)

/-- The Bird (flappy.py lines 481-520): position as floats, the cached pygame
rect, vertical speed, remaining lives.  The image is presentation only and is
not modelled. -/
structure Bird where
  x : ℚ
  y : ℚ
  rect : Rect
  speed : ℚ
  lives : Int
deriving DecidableEq

/-- Bird.flap (lines 501-503): the upward impulse overwrites the speed. -/
def Bird.flap (b : Bird) : Bird := { b with speed := -9 }

/-- Bird.apply_gravity (lines 506-512): y += speed, then the rect is
re-centered on (x, y), then speed += 0.9. -/
def Bird.apply_gravity (b : Bird) : Bird :=
  { b with
    y := b.y + b.speed
    rect := b.rect.setCenter (ratTrunc b.x) (ratTrunc (b.y + b.speed))
    speed := b.speed + 9 / 10 }

/-- Bird.reduce_life (lines 519-520). -/
def Bird.reduce_life (b : Bird) : Bird := { b with lives := b.lives - 1 }

/-- A Pipe after generate_pipes has run.  In the source every Pipe is created
(lines 525-527, drawing height = random.randint(100, PIPE_HEIGHT)) and
immediately has generate_pipes called on it (lines 530-538); mkPipe h models
that combined construction with the drawn height h.  Note line 535 computes
height_bottom = length - PIPE_GAP - self.height using the horizontal screen
constant length. -/
structure Pipe where
  width : Int
  height : Int
  x : Int
  top : Rect
  bottom : Rect
deriving DecidableEq

def mkPipe (h : Int) : Pipe :=
  { width := PIPE_WIDTH
    height := h
    x := length
    top := { x := length, y := 0, w := PIPE_WIDTH, h := h }
    bottom := { x := length, y := h + PIPE_GAP, w := PIPE_WIDTH,
                h := length - PIPE_GAP - h } }

/-- Pipe.move (lines 541-545): x -= PIPE_SPEED, both rects follow. -/
def Pipe.move (p : Pipe) : Pipe :=
  { p with
    x := p.x - PIPE_SPEED
    top := { p.top with x := p.x - PIPE_SPEED }
    bottom := { p.bottom with x := p.x - PIPE_SPEED } }

/-- Pipe.is_off_screen (lines 557-560), the 1/0 return read as a Bool. -/
def Pipe.is_off_screen (p : Pipe) : Bool := decide (p.x + p.width < 0)

/-- CollisionDetector.detect_collision (lines 573-596): true when the bird
rect strictly overlaps the top or bottom rect of any pipe, or bird.y < 0, or
bird.y > screen_height - bird.rect.height.  The prints are side effects on
stdout only. -/
def detect_collision (bird : Bird) (pipes : List Pipe) (screen_height : Int) : Bool :=
  (pipes.any fun p => collideRect bird.rect p.top || collideRect bird.rect p.bottom) ||
  decide (bird.y < 0) ||
  decide (bird.y > ((screen_height - bird.rect.h : Int) : ℚ))

/-- Score (lines 30-47): current and high counters. -/
structure Score where
  current_score : Int
  high_score : Int
deriving DecidableEq

/-- Score.increment (lines 37-38). -/
def Score.increment (s : Score) : Score :=
  { s with current_score := s.current_score + 1 }

/-- Score.reset (lines 41-42). -/
def Score.reset (s : Score) : Score :=
  { s with current_score := 0 }

/-- Score.update_high_score (lines 45-47). -/
def Score.update_high_score (s : Score) : Score :=
  if s.current_score > s.high_score then { s with high_score := s.current_score } else s

/-- User (lines 11-17). -/
structure User where
  username : String
  password : String
  score : Score
deriving DecidableEq

/-- The users dictionary of UserDatabase, as an association list with the
username as key (Python dict keys are unique; lookups read the entry for the
key, updates rewrite that entry in place). -/
structure UserDatabase where
  users : List (String × User)
deriving DecidableEq

/-- Dictionary read: users[name], none when the key is missing. -/
def findUser : List (String × User) → String → Option User
  | [], _ => none
  | (k, u) :: rest, name => if k = name then some u else findUser rest name

/-- In-place write of the high score field of the entry for name. -/
def setUserHigh : List (String × User) → String → Int → List (String × User)
  | [], _, _ => []
  | (k, u) :: rest, name, v =>
      if k = name then
        (k, { u with score := { u.score with high_score := v } }) :: rest
      else
        (k, u) :: setUserHigh rest name v

/-- UserDatabase.update_high_score (lines 118-125).  The returned Bool
records whether save_users was called, that is whether the new value was
persisted to disk. -/
def UserDatabase.update_high_score (db : UserDatabase) (username : String)
    (new_score : Int) : UserDatabase × Bool :=
  match findUser db.users username with
  | none => (db, false)
  | some user =>
      if new_score > user.score.high_score then
        ({ users := setUserHigh db.users username new_score }, true)
      else
        (db, false)

/-- UserDatabase.get_high_score (lines 128-132): 0 when the user is absent. -/
def UserDatabase.get_high_score (db : UserDatabase) (username : String) : Int :=
  match findUser db.users username with
  | none => 0
  | some user => user.score.high_score

/-- The clock read and the random draws consumed by one pass through
Game.generate_pipes (lines 683-700): now models pygame.time.get_ticks(),
pipe_height models random.randint(100, PIPE_HEIGHT) of the Pipe constructor,
and freq_base, freq_mid, freq_high model random.randint(2500, 4500),
random.randint(2000, 3000) and random.randint(1500, 2500). -/
structure Env where
  now : Int
  pipe_height : Int
  freq_base : Int
  freq_mid : Int
  freq_high : Int
deriving DecidableEq

/-- The net effect of lines 695-700 on next_pipe_frequency after a spawn:
first the base draw is assigned, then the if / elif chain may overwrite it.
Because the elif guard score > 10000 is only reached when score > 4000 is
false, the freq_high branch is unreachable. -/
def next_pipe_frequency_after_spawn (score f_base f_mid f_high : Int) : Int :=
  if score > 4000 then f_mid
  else if score > 10000 then f_high
  else f_base

/-- The game state touched by the simulation loop.  The collision detector
always aliases the bird and pipes of the Game (it is given them at
construction, its pipes field is reassigned at line 668 on every check and
its bird field at every level transition), so it is not a separate copy
here. -/
structure Game where
  bird : Bird
  pipes : List Pipe
  score_system : Score
  running : Bool
  game_started : Bool
  paused : Bool
  screen_width : Int
  screen_height : Int
  last_pipe_time : Int
  next_pipe_frequency : Int
deriving DecidableEq

/-- Game.reset_bird_and_pipes (lines 912-917): recenter the bird fields x
and y (floor division on the even nonnegative screen sizes), zero the speed,
clear the pipes, drop back to the pre-flap state.  The bird rect is not
touched. -/
def Game.reset_bird_and_pipes (g : Game) : Game :=
  { g with
    bird := { g.bird with
              x := ((g.screen_width / 2 : Int) : ℚ)
              y := ((g.screen_height / 2 : Int) : ℚ)
              speed := 0 }
    pipes := []
    game_started := false }

/-- Game.check_collisions (lines 666-680). -/
def Game.check_collisions (g : Game) : Game :=
  if detect_collision g.bird g.pipes g.screen_height then
    if (g.bird.reduce_life).lives = 0 then
      { g with bird := g.bird.reduce_life, running := false }
    else
      Game.reset_bird_and_pipes { g with bird := g.bird.reduce_life }
  else
    { g with score_system := g.score_system.increment }

/-- Game.generate_pipes (lines 683-700): when the elapsed time exceeds the
current randomized threshold, append a freshly generated pipe, reset the
timer and re-roll the threshold through the score-dependent chain. -/
def Game.generate_pipes (g : Game) (env : Env) : Game :=
  if env.now - g.last_pipe_time > g.next_pipe_frequency then
    { g with
      pipes := g.pipes ++ [mkPipe env.pipe_height]
      last_pipe_time := env.now
      next_pipe_frequency :=
        next_pipe_frequency_after_spawn g.score_system.current_score
          env.freq_base env.freq_mid env.freq_high }
  else g

/-- Game.move_pipes (lines 703-711): scroll every pipe left, then keep only
the pipes that are not off screen. -/
def Game.move_pipes (g : Game) : Game :=
  { g with pipes := (g.pipes.map Pipe.move).filter fun p => !p.is_off_screen }

/-- The guarded block of one iteration of Game.running_loop (lines 955-962):
when the game is started and not paused, generate pipes, move pipes, check
collisions, then apply gravity to the bird.  The condition of the if was
evaluated on entry, so apply_gravity still runs in the iteration in which
check_collisions performed a soft reset. -/
def Game.active_step (g : Game) (env : Env) : Game :=
  { ((g.generate_pipes env).move_pipes).check_collisions with
    bird := (((g.generate_pipes env).move_pipes).check_collisions).bird.apply_gravity }

/-- Which of the four Bird objects of the Game (self.bird, self.bird1,
self.bird2, self.bird3, lines 621-624) a Python reference points at. -/
inductive BirdId where
  | bird0
  | bird1
  | bird2
  | bird3
deriving DecidableEq

/-- The four Bird objects. -/
structure BirdStore where
  bird0 : Bird
  bird1 : Bird
  bird2 : Bird
  bird3 : Bird
deriving DecidableEq

def BirdStore.get (s : BirdStore) : BirdId → Bird
  | .bird0 => s.bird0
  | .bird1 => s.bird1
  | .bird2 => s.bird2
  | .bird3 => s.bird3

def BirdStore.set (s : BirdStore) (i : BirdId) (b : Bird) : BirdStore :=
  match i with
  | .bird0 => { s with bird0 := b }
  | .bird1 => { s with bird1 := b }
  | .bird2 => { s with bird2 := b }
  | .bird3 => { s with bird3 := b }

/-- The state read and written by Game.check_level_transition (lines
781-865): the score, the four bird objects, which object self.bird points at
(bird_ref), which object self.collision_detector.bird points at
(detector_bird), the three reached flags, and the presentation state
(background color tuples and ground image asset ids: 1 iarba, 2 flori,
3 fluturi). -/
structure Stager where
  score_system : Score
  birds : BirdStore
  bird_ref : BirdId
  detector_bird : BirdId
  level_2_reached : Bool
  level_3_reached : Bool
  level_4_reached : Bool
  background_color : Int × Int × Int
  background_color1 : Int × Int × Int
  background_color2 : Int × Int × Int
  background_color3 : Int × Int × Int
  ground_image : Int
  ground_image1 : Int
  ground_image2 : Int
  ground_image3 : Int
deriving DecidableEq

/-- The hand-off block repeated in each branch of check_level_transition
(for example lines 798-811): read x, y, rect, rect.center and lives of the
outgoing bird, repoint self.bird at the target object, then write the saved
x, y and rect onto it, re-assign the saved center onto that same rect, and
write the saved lives.  The speed field is not copied.  After self.bird.rect
= bird_rect the target and the outgoing bird share one rect object; rects
are modelled by value, which agrees on every field read. -/
def bird_hand_off (s : BirdStore) (active target : BirdId) : BirdStore :=
  s.set target
    { s.get target with
      x := (s.get active).x
      y := (s.get active).y
      rect := (s.get active).rect.setCenter (s.get active).rect.centerx
                (s.get active).rect.centery
      lives := (s.get active).lives }

/-- Game.check_level_transition (lines 781-865).  level_threshold = 300 and
current_lvl = (current_score // 300) % 3 (current_score is nonnegative, so
Int division and remainder agree with the Python operators). -/
def Stager.check_level_transition (g : Stager) : Stager :=
  if (g.score_system.current_score / 300) % 3 = 1 ∧ g.level_2_reached = false then
    { g with
      level_2_reached := true
      level_3_reached := false
      level_4_reached := false
      background_color := g.background_color2
      ground_image := g.ground_image2
      birds := bird_hand_off g.birds g.bird_ref .bird2
      bird_ref := .bird2
      detector_bird := .bird2 }
  else if (g.score_system.current_score / 300) % 3 = 2 ∧ g.level_3_reached = false then
    { g with
      level_3_reached := true
      level_2_reached := false
      level_4_reached := false
      background_color := g.background_color3
      ground_image := g.ground_image3
      birds := bird_hand_off g.birds g.bird_ref .bird3
      bird_ref := .bird3
      detector_bird := .bird3 }
  else if (g.score_system.current_score / 300) % 3 = 0 ∧ g.level_4_reached = false then
    { g with
      level_4_reached := true
      level_2_reached := false
      level_3_reached := false
      background_color := g.background_color1
      ground_image := g.ground_image1
      birds := bird_hand_off g.birds g.bird_ref .bird1
      bird_ref := .bird1
      detector_bird := .bird1 }
  else g

/-- Whether some branch of check_level_transition fires on this state. -/
def Stager.transition_fires (g : Stager) : Bool :=
  (decide ((g.score_system.current_score / 300) % 3 = 1) && !g.level_2_reached) ||
  (decide ((g.score_system.current_score / 300) % 3 = 2) && !g.level_3_reached) ||
  (decide ((g.score_system.current_score / 300) % 3 = 0) && !g.level_4_reached)

-- ------------------------- concrete states -------------------------

/-- A bird resting exactly on the top screen boundary (y = 0). -/
def birdAtTop : Bird :=
  { x := 970, y := 0, rect := { x := 940, y := -30, w := 60, h := 60 },
    speed := 0, lives := 3 }

/-- A bird resting exactly on the bottom screen boundary
(y = 1200 - 60 = 1140). -/
def birdAtBottom : Bird :=
  { x := 970, y := 1140, rect := { x := 940, y := 1110, w := 60, h := 60 },
    speed := 0, lives := 3 }

/-- A bird strictly inside the screen, used as a witness input. -/
def birdInside : Bird :=
  { x := 970, y := 600, rect := { x := 940, y := 570, w := 60, h := 60 },
    speed := 0, lives := 3 }

/-- A pipe whose rects lie to the right of birdInside. -/
def pipeFar : Pipe := mkPipe 300

/-- An Env in which no spawn happens (elapsed 100 is below every threshold
used here) and all draws are fixed. -/
def envQuiet : Env :=
  { now := 100, pipe_height := 300, freq_base := 3000, freq_mid := 2500,
    freq_high := 2000 }

/-- An active game state with no collision this tick. -/
def gameCalm : Game :=
  { bird := birdInside, pipes := [], score_system := { current_score := 50, high_score := 80 },
    running := true, game_started := true, paused := false,
    screen_width := 1940, screen_height := 1200,
    last_pipe_time := 0, next_pipe_frequency := 3000 }

/-- An active game state in which the bird is above the top boundary
(y = -5 < 0), so this tick collides and soft-resets; the rect still shows
the old position (100, 100). -/
def gameHit : Game :=
  { bird := { x := 100, y := -5, rect := { x := 70, y := -35, w := 60, h := 60 },
              speed := 3, lives := 3 },
    pipes := [], score_system := { current_score := 50, high_score := 80 },
    running := true, game_started := true, paused := false,
    screen_width := 1940, screen_height := 1200,
    last_pipe_time := 0, next_pipe_frequency := 3000 }

/-- A stager state at score 300 with no flag set: current_lvl = 1, so the
first transition (to bird2) fires.  The outgoing active bird has speed 5;
the designated bird2 object still has its initial speed 0. -/
def stagerAt300 : Stager :=
  { score_system := { current_score := 300, high_score := 0 },
    birds :=
      { bird0 := { x := 970, y := 300, rect := { x := 940, y := 270, w := 60, h := 60 },
                   speed := 5, lives := 2 },
        bird1 := birdInside,
        bird2 := birdInside,
        bird3 := birdInside },
    bird_ref := .bird0, detector_bird := .bird0,
    level_2_reached := false, level_3_reached := false, level_4_reached := false,
    background_color := (135, 206, 235), background_color1 := (135, 206, 235),
    background_color2 := (255, 240, 208), background_color3 := (255, 209, 253),
    ground_image := 1, ground_image1 := 1, ground_image2 := 2, ground_image3 := 3 }

/-- The user alice with a stored high score of 100. -/
def aliceName : String := "alice"

def alicePass : String := "pw"

def aliceUser : User :=
  { username := aliceName, password := alicePass,
    score := { current_score := 0, high_score := 100 } }

def dbAlice : UserDatabase := { users := [(aliceName, aliceUser)] }

def dbEmpty : UserDatabase := { users := [] }

-- ------------------------- helper lemmas -------------------------

theorem ratTrunc_intCast (n : Int) : ratTrunc ((n : Int) : ℚ) = n := by
  unfold ratTrunc
  simp [Rat.num_intCast, Rat.den_intCast, Int.sign_mul_abs]

theorem Rect.setCenter_center_self (r : Rect) :
    r.setCenter r.centerx r.centery = r := by
  cases r
  simp [Rect.setCenter, Rect.centerx, Rect.centery]

theorem generate_pipes_bird (g : Game) (env : Env) :
    (g.generate_pipes env).bird = g.bird := by
  unfold Game.generate_pipes
  split <;> rfl

theorem generate_pipes_score (g : Game) (env : Env) :
    (g.generate_pipes env).score_system = g.score_system := by
  unfold Game.generate_pipes
  split <;> rfl

theorem generate_pipes_dims (g : Game) (env : Env) :
    (g.generate_pipes env).screen_width = g.screen_width ∧
    (g.generate_pipes env).screen_height = g.screen_height := by
  unfold Game.generate_pipes
  split <;> exact ⟨rfl, rfl⟩

theorem check_collisions_score (g : Game) :
    (g.check_collisions).score_system.current_score =
      if detect_collision g.bird g.pipes g.screen_height then
        g.score_system.current_score
      else
        g.score_system.current_score + 1 := by
  unfold Game.check_collisions Game.reset_bird_and_pipes Score.increment Bird.reduce_life
  split_ifs <;> rfl

-- ------------------------- claim theorems -------------------------

/-- C1, counterexample: an Obstacle created with gapStart 100 has
bottomBar.height = 1620, which is not screenHeight - gapSize - gapStart =
1200 - 220 - 100 = 880; line 535 subtracts from the horizontal constant
length, not from the screen height. -/
theorem c1_counterexample :
    (mkPipe 100).top.h = 100 ∧
    (mkPipe 100).bottom.y = 100 + PIPE_GAP ∧
    (mkPipe 100).bottom.h = 1620 ∧
    width - PIPE_GAP - 100 = 880 ∧
    (mkPipe 100).bottom.h ≠ width - PIPE_GAP - 100 := by
  decide

/-- C1, amended: for every Obstacle created with gapStart g in the claimed
range, the rectangles satisfy topBar.height = g, bottomBar.y = g + gapSize,
and bottomBar.height = length - gapSize - g, where length = 1940 is the
screen WIDTH constant of the module, not the screen height. -/
theorem c1_pipe_rects (g : Int) (h1 : 100 ≤ g) (h2 : g ≤ width - PIPE_GAP) :
    (mkPipe g).top.h = g ∧
    (mkPipe g).bottom.y = g + PIPE_GAP ∧
    (mkPipe g).bottom.h = length - PIPE_GAP - g :=
  ⟨rfl, rfl, rfl⟩

/-- C1 witness: the amended statement evaluated at gapStart 300. -/
theorem c1_pipe_rects_witness :
    (100 : Int) ≤ 300 ∧ (300 : Int) ≤ width - PIPE_GAP ∧
    ((mkPipe 300).top.h = 300 ∧
     (mkPipe 300).bottom.y = 300 + PIPE_GAP ∧
     (mkPipe 300).bottom.h = length - PIPE_GAP - 300) :=
  ⟨by decide, by decide, c1_pipe_rects 300 (by decide) (by decide)⟩

/-- C3, counterexample: with the actor exactly at a screen boundary (y = 0
at the top, or y = screenHeight - actorHeight = 1140 at the bottom) and no
pipes, detect_collision returns false, not true: the comparisons at lines
587 and 591 are strict. -/
theorem c3_counterexample :
    birdAtTop.y = 0 ∧
    birdAtBottom.y = 1140 ∧
    detect_collision birdAtTop [] 1200 = false ∧
    detect_collision birdAtBottom [] 1200 = false := by
  decide

/-- C3, amended: the boundary comparison is exclusive, not inclusive: an
actor exactly at the top boundary (y = 0) or exactly at the bottom boundary
(y = screenHeight - actorHeight), overlapping no obstacle rectangle, is NOT
reported as a collision. -/
theorem c3_boundary_exclusive (bird : Bird) (pipes : List Pipe) (H : Int)
    (hh : 0 ≤ H - bird.rect.h)
    (hy : bird.y = 0 ∨ bird.y = ((H - bird.rect.h : Int) : ℚ))
    (hp : ∀ p ∈ pipes, collideRect bird.rect p.top = false ∧
                       collideRect bird.rect p.bottom = false) :
    detect_collision bird pipes H = false := by
  unfold detect_collision
  simp only [Bool.or_eq_false_iff, decide_eq_false_iff_not, not_lt, List.any_eq_false]
  refine ⟨⟨fun p hpm => by simp [(hp p hpm).1, (hp p hpm).2], ?_⟩, ?_⟩
  · rcases hy with h | h
    · rw [h]
    · rw [h]; exact_mod_cast hh
  · rcases hy with h | h
    · rw [h]; exact_mod_cast hh
    · rw [h]

/-- C3 witness: the amended statement evaluated with the actor exactly at
the top boundary of a 1200-pixel screen. -/
theorem c3_boundary_exclusive_witness :
    (0 : Int) ≤ 1200 - birdAtTop.rect.h ∧
    birdAtTop.y = 0 ∧
    detect_collision birdAtTop [] 1200 = false :=
  ⟨by decide, by decide,
   c3_boundary_exclusive birdAtTop [] 1200 (by decide) (Or.inl (by decide))
     (by simp)⟩

/-- C4: the spawn-interval ramp is broken at the second band.  Because the
guard score > 10000 sits in an elif behind score > 4000 (lines 697-700), a
score above the second band still draws from the middle range: at score
10001 every draw resolves to the 2000-3000 draw, never the 1500-2500 draw,
so the value 3000 (outside the tighter-still range) can be produced. -/
theorem c4_dead_band :
    (∀ f_base f_mid f_high : Int,
      next_pipe_frequency_after_spawn 10001 f_base f_mid f_high = f_mid) ∧
    next_pipe_frequency_after_spawn 10001 2500 3000 1500 = 3000 ∧
    ¬ (3000 : Int) ≤ 2500 := by
  refine ⟨fun f_base f_mid f_high => ?_, by decide, by decide⟩
  have h4 : (10001 : Int) > 4000 := by decide
  simp [next_pipe_frequency_after_spawn, h4]

/-- C7: for every actor strictly inside the vertical play area whose
bounding box overlaps no top or bottom rectangle of any pipe,
detect_collision returns false. -/
theorem c7_no_overlap_no_collision (bird : Bird) (pipes : List Pipe) (H : Int)
    (h0 : 0 < bird.y) (h1 : bird.y < ((H - bird.rect.h : Int) : ℚ))
    (hp : ∀ p ∈ pipes, collideRect bird.rect p.top = false ∧
                       collideRect bird.rect p.bottom = false) :
    detect_collision bird pipes H = false := by
  unfold detect_collision
  simp only [Bool.or_eq_false_iff, decide_eq_false_iff_not, not_lt, List.any_eq_false]
  exact ⟨⟨fun p hpm => by simp [(hp p hpm).1, (hp p hpm).2], le_of_lt h0⟩,
         le_of_lt h1⟩

/-- C7 witness: evaluated at a bird in the middle of the screen with one
far-away pipe. -/
theorem c7_no_overlap_no_collision_witness :
    (0 : ℚ) < birdInside.y ∧
    birdInside.y < ((1200 - birdInside.rect.h : Int) : ℚ) ∧
    detect_collision birdInside [pipeFar] 1200 = false :=
  ⟨by decide, by decide,
   c7_no_overlap_no_collision birdInside [pipeFar] 1200 (by decide) (by decide)
     (by decide)⟩

/-- update_high_score written as a closed form. -/
theorem update_high_eq (s : Score) :
    s.update_high_score =
      { current_score := s.current_score,
        high_score := max s.high_score s.current_score } := by
  unfold Score.update_high_score
  split_ifs with h
  · rw [max_eq_right (le_of_lt h)]
  · rw [max_eq_left (not_lt.mp h)]

/-- C8: update_high_score sets high to max high current, never decreases
high, and is idempotent; reset zeroes current and leaves high unchanged. -/
theorem c8_score_tracker (s : Score) :
    (s.update_high_score).high_score = max s.high_score s.current_score ∧
    s.high_score ≤ (s.update_high_score).high_score ∧
    (s.update_high_score).update_high_score = s.update_high_score ∧
    (s.reset).current_score = 0 ∧
    (s.reset).high_score = s.high_score := by
  refine ⟨?_, ?_, ?_, rfl, rfl⟩
  · rw [update_high_eq]
  · rw [update_high_eq]
    exact le_max_left _ _
  · rw [update_high_eq s, update_high_eq]
    simp [max_assoc]

/-- C5: on every tick of the active block (started and not paused), the
current score after the tick is unchanged when detect_collision returned
true and is exactly one larger when it returned false. -/
theorem c5_tick_score (env : Env) (g : Game)
    (hs : g.game_started = true) (hp : g.paused = false) :
    (g.active_step env).score_system.current_score =
      if detect_collision g.bird ((g.generate_pipes env).move_pipes).pipes
           g.screen_height then
        g.score_system.current_score
      else
        g.score_system.current_score + 1 := by
  have h1 : (g.active_step env).score_system.current_score
      = (((g.generate_pipes env).move_pipes).check_collisions).score_system.current_score := rfl
  rw [h1, check_collisions_score ((g.generate_pipes env).move_pipes)]
  rw [show ((g.generate_pipes env).move_pipes).bird = g.bird from generate_pipes_bird g env]
  rw [show ((g.generate_pipes env).move_pipes).score_system = g.score_system from
        generate_pipes_score g env]
  rw [show ((g.generate_pipes env).move_pipes).screen_height = g.screen_height from
        (generate_pipes_dims g env).2]

/-- C5 witness: a concrete collision-free tick increments the score by 1. -/
theorem c5_tick_score_witness :
    gameCalm.game_started = true ∧ gameCalm.paused = false ∧
    (gameCalm.active_step envQuiet).score_system.current_score =
      gameCalm.score_system.current_score + 1 := by
  refine ⟨rfl, rfl, ?_⟩
  have h := c5_tick_score envQuiet gameCalm rfl rfl
  rw [show detect_collision gameCalm.bird
        ((gameCalm.generate_pipes envQuiet).move_pipes).pipes
        gameCalm.screen_height = false from by decide] at h
  simpa using h

/-- C6: on a collision tick after which the actor still has at least one
life, check_collisions soft-resets: actor at screen center, speed zero,
pipes cleared, game_started false, running still true, and the current
score unchanged. -/
theorem c6_soft_reset (g : Game)
    (hrun : g.running = true)
    (hcol : detect_collision g.bird g.pipes g.screen_height = true)
    (hlives : 1 ≤ g.bird.lives - 1) :
    (g.check_collisions).bird.x = ((g.screen_width / 2 : Int) : ℚ) ∧
    (g.check_collisions).bird.y = ((g.screen_height / 2 : Int) : ℚ) ∧
    (g.check_collisions).bird.speed = 0 ∧
    (g.check_collisions).pipes = [] ∧
    (g.check_collisions).game_started = false ∧
    (g.check_collisions).running = true ∧
    (g.check_collisions).score_system.current_score = g.score_system.current_score := by
  have hnz : ¬ (g.bird.reduce_life).lives = 0 := by
    show ¬ g.bird.lives - 1 = 0
    omega
  unfold Game.check_collisions
  rw [if_pos hcol, if_neg hnz]
  exact ⟨rfl, rfl, rfl, rfl, rfl, hrun, rfl⟩

/-- C6 witness: the soft reset evaluated on a concrete collision tick with
three lives. -/
theorem c6_soft_reset_witness :
    gameHit.running = true ∧
    detect_collision gameHit.bird gameHit.pipes gameHit.screen_height = true ∧
    (1 : Int) ≤ gameHit.bird.lives - 1 ∧
    ((gameHit.check_collisions).bird.x = ((gameHit.screen_width / 2 : Int) : ℚ) ∧
     (gameHit.check_collisions).bird.y = ((gameHit.screen_height / 2 : Int) : ℚ) ∧
     (gameHit.check_collisions).bird.speed = 0 ∧
     (gameHit.check_collisions).pipes = [] ∧
     (gameHit.check_collisions).game_started = false ∧
     (gameHit.check_collisions).running = true ∧
     (gameHit.check_collisions).score_system.current_score
       = gameHit.score_system.current_score) :=
  ⟨rfl, by decide, by decide,
   c6_soft_reset gameHit rfl (by decide) (by decide)⟩

/-- A lookup after setUserHigh on the found entry returns that entry with
the new high score. -/
theorem findUser_setUserHigh (name : String) (v : Int) :
    ∀ (l : List (String × User)) (user : User), findUser l name = some user →
      findUser (setUserHigh l name v) name
        = some { user with score := { user.score with high_score := v } } := by
  intro l
  induction l with
  | nil =>
    intro user hu
    simp [findUser] at hu
  | cons kv rest ih =>
    intro user hu
    obtain ⟨k, u⟩ := kv
    by_cases hk : k = name
    · subst hk
      simp [findUser] at hu
      subst hu
      simp [findUser, setUserHigh]
    · simp [findUser, setUserHigh, hk] at hu ⊢
      exact ih user hu

/-- C9: get_high_score returns 0 for an unknown username, and
update_high_score writes and persists (save flag true) exactly when the
username exists and the new score strictly exceeds the stored high score,
returning the database unchanged and not saving otherwise. -/
theorem c9_account_store (db : UserDatabase) (u : String) (s : Int) :
    (findUser db.users u = none →
      db.get_high_score u = 0 ∧ db.update_high_score u s = (db, false)) ∧
    (∀ user, findUser db.users u = some user →
      (user.score.high_score < s →
        (db.update_high_score u s).1.get_high_score u = s ∧
        (db.update_high_score u s).2 = true) ∧
      (s ≤ user.score.high_score → db.update_high_score u s = (db, false))) := by
  constructor
  · intro h
    constructor
    · unfold UserDatabase.get_high_score
      rw [h]
    · unfold UserDatabase.update_high_score
      rw [h]
  · intro user h
    constructor
    · intro hgt
      unfold UserDatabase.update_high_score
      rw [h]
      dsimp only
      rw [if_pos hgt]
      constructor
      · unfold UserDatabase.get_high_score
        dsimp only
        rw [findUser_setUserHigh u s db.users user h]
      · rfl
    · intro hle
      unfold UserDatabase.update_high_score
      rw [h]
      dsimp only
      rw [if_neg (not_lt.mpr hle)]

/-- C9 witness: the end-to-end scenario of the account store, with alice
stored at high score 100: an unknown name reads 0, writing 150 persists
150, writing 90 changes nothing and does not save. -/
theorem c9_account_store_witness :
    dbEmpty.get_high_score aliceName = 0 ∧
    (dbAlice.update_high_score aliceName 150).1.get_high_score aliceName = 150 ∧
    (dbAlice.update_high_score aliceName 150).2 = true ∧
    dbAlice.update_high_score aliceName 90 = (dbAlice, false) := by
  refine ⟨((c9_account_store dbEmpty aliceName 0).1 rfl).1, ?_, ?_, ?_⟩
  · exact (((c9_account_store dbAlice aliceName 150).2 aliceUser rfl).1 (by decide)).1
  · exact (((c9_account_store dbAlice aliceName 150).2 aliceUser rfl).1 (by decide)).2
  · exact ((c9_account_store dbAlice aliceName 90).2 aliceUser rfl).2 (by decide)

/-- C2, counterexample: at score 300 the first stage transition fires, the
outgoing actor has vertical speed 5, but the incoming actor (the
pre-existing bird2 object, whose own speed is 0) does not receive the
outgoing speed: the hand-off copies x, y, rect and lives but not speed, so
vertical velocity is not preserved. -/
theorem c2_counterexample :
    stagerAt300.transition_fires = true ∧
    ((stagerAt300.check_level_transition).birds.get
        (stagerAt300.check_level_transition).bird_ref).speed
      ≠ (stagerAt300.birds.get stagerAt300.bird_ref).speed := by
  decide

/-- C2, amended: every fired level-stage transition hands the run state to
the designated pre-existing actor, preserving position (x, y), bounding
box and lives of the outgoing actor, and repoints the collision detector
at the new actor in the same step; the vertical velocity is NOT copied, the
incoming actor keeps whatever speed it already had. -/
theorem c2_hand_off (g : Stager) (h : g.transition_fires = true) :
    ((g.check_level_transition).birds.get (g.check_level_transition).bird_ref).x
      = (g.birds.get g.bird_ref).x ∧
    ((g.check_level_transition).birds.get (g.check_level_transition).bird_ref).y
      = (g.birds.get g.bird_ref).y ∧
    ((g.check_level_transition).birds.get (g.check_level_transition).bird_ref).rect
      = (g.birds.get g.bird_ref).rect ∧
    ((g.check_level_transition).birds.get (g.check_level_transition).bird_ref).lives
      = (g.birds.get g.bird_ref).lives ∧
    (g.check_level_transition).detector_bird = (g.check_level_transition).bird_ref := by
  simp only [Stager.transition_fires, Bool.or_eq_true, Bool.and_eq_true,
    decide_eq_true_eq, Bool.not_eq_true'] at h
  unfold Stager.check_level_transition
  split_ifs with h1 h2 h3
  · refine ⟨?_, ?_, ?_, ?_, rfl⟩ <;>
      simp [bird_hand_off, BirdStore.get, BirdStore.set, Rect.setCenter_center_self]
  · refine ⟨?_, ?_, ?_, ?_, rfl⟩ <;>
      simp [bird_hand_off, BirdStore.get, BirdStore.set, Rect.setCenter_center_self]
  · refine ⟨?_, ?_, ?_, ?_, rfl⟩ <;>
      simp [bird_hand_off, BirdStore.get, BirdStore.set, Rect.setCenter_center_self]
  · exfalso
    tauto

/-- C2 witness: the amended hand-off statement evaluated at the concrete
score-300 transition. -/
theorem c2_hand_off_witness :
    stagerAt300.transition_fires = true ∧
    (((stagerAt300.check_level_transition).birds.get
        (stagerAt300.check_level_transition).bird_ref).x
       = (stagerAt300.birds.get stagerAt300.bird_ref).x ∧
     ((stagerAt300.check_level_transition).birds.get
        (stagerAt300.check_level_transition).bird_ref).y
       = (stagerAt300.birds.get stagerAt300.bird_ref).y ∧
     ((stagerAt300.check_level_transition).birds.get
        (stagerAt300.check_level_transition).bird_ref).rect
       = (stagerAt300.birds.get stagerAt300.bird_ref).rect ∧
     ((stagerAt300.check_level_transition).birds.get
        (stagerAt300.check_level_transition).bird_ref).lives
       = (stagerAt300.birds.get stagerAt300.bird_ref).lives ∧
     (stagerAt300.check_level_transition).detector_bird
       = (stagerAt300.check_level_transition).bird_ref) :=
  ⟨by decide, c2_hand_off stagerAt300 (by decide)⟩

/-- On a collision tick that soft-resets (at least one life left after the
decrement), the rect of the bird at the end of the check-then-gravity
sequence is the old rect re-centered on the reset position. -/
theorem collide_reset_rect (G : Game)
    (hcol : detect_collision G.bird G.pipes G.screen_height = true)
    (hlives : ¬ G.bird.lives - 1 = 0) :
    ((G.check_collisions).bird.apply_gravity).rect
      = G.bird.rect.setCenter (G.screen_width / 2) (G.screen_height / 2) := by
  have hnz : ¬ (G.bird.reduce_life).lives = 0 := hlives
  unfold Game.check_collisions
  rw [if_pos hcol, if_neg hnz]
  show (Rect.setCenter G.bird.rect
          (ratTrunc ((G.screen_width / 2 : Int) : ℚ))
          (ratTrunc (((G.screen_height / 2 : Int) : ℚ) + 0)))
      = G.bird.rect.setCenter (G.screen_width / 2) (G.screen_height / 2)
  rw [add_zero, ratTrunc_intCast, ratTrunc_intCast]

/-- C10, counterexample: on a concrete collision tick the soft reset does
run, yet by the end of that same tick iteration the bird rect has already
been re-centered on the reset position (apply_gravity still executes after
check_collisions inside the already-entered if block), so the rect consulted
by the next collision check is the re-centered one, not the stale pre-reset
rectangle. -/
theorem c10_counterexample :
    detect_collision gameHit.bird gameHit.pipes gameHit.screen_height = true ∧
    (gameHit.active_step envQuiet).game_started = false ∧
    gameHit.bird.rect = { x := 70, y := -35, w := 60, h := 60 } ∧
    (gameHit.active_step envQuiet).bird.rect = { x := 940, y := 570, w := 60, h := 60 } ∧
    (gameHit.active_step envQuiet).bird.rect ≠ gameHit.bird.rect := by
  have hgen : gameHit.generate_pipes envQuiet = gameHit := by decide
  have hmove : Game.move_pipes gameHit = gameHit := by decide
  have hstep : (gameHit.active_step envQuiet).bird.rect
      = ((gameHit.check_collisions).bird.apply_gravity).rect := by
    unfold Game.active_step
    rw [hgen, hmove]
  have hr := collide_reset_rect gameHit (by decide) (by decide)
  have hrect : (gameHit.active_step envQuiet).bird.rect
      = { x := 940, y := 570, w := 60, h := 60 } := by
    rw [hstep, hr]
    decide
  refine ⟨by decide, ?_, by decide, hrect, ?_⟩
  · unfold Game.active_step
    rw [hgen, hmove]
    decide
  · rw [hrect]
    decide

/-- C10, amended: reset_bird_and_pipes indeed leaves bird.rect unchanged,
but apply_gravity runs later in the same tick iteration (the enclosing
started-and-not-paused block was already entered), so at the end of a
soft-reset tick the bird rect is the old rect re-centered on the reset
position; the first post-reset collision check therefore tests the
re-centered rectangle, not the stale one. -/
theorem c10_reset_rect (env : Env) (g : Game)
    (hcol : detect_collision g.bird ((g.generate_pipes env).move_pipes).pipes
              g.screen_height = true)
    (hlives : ¬ g.bird.lives - 1 = 0) :
    (∀ h : Game, (h.reset_bird_and_pipes).bird.rect = h.bird.rect) ∧
    (g.active_step env).bird.rect
      = g.bird.rect.setCenter (g.screen_width / 2) (g.screen_height / 2) := by
  constructor
  · intro h
    rfl
  · have hb : ((g.generate_pipes env).move_pipes).bird = g.bird :=
      generate_pipes_bird g env
    have hw : ((g.generate_pipes env).move_pipes).screen_width = g.screen_width :=
      (generate_pipes_dims g env).1
    have hh : ((g.generate_pipes env).move_pipes).screen_height = g.screen_height :=
      (generate_pipes_dims g env).2
    have h2 := collide_reset_rect ((g.generate_pipes env).move_pipes)
      (by rw [hb, hh]; exact hcol) (by rw [hb]; exact hlives)
    rw [hb, hw, hh] at h2
    exact h2

/-- C10 witness: the amended statement evaluated on the concrete collision
tick. -/
theorem c10_reset_rect_witness :
    detect_collision gameHit.bird
      ((gameHit.generate_pipes envQuiet).move_pipes).pipes
      gameHit.screen_height = true ∧
    ¬ gameHit.bird.lives - 1 = 0 ∧
    (gameHit.active_step envQuiet).bird.rect
      = gameHit.bird.rect.setCenter (gameHit.screen_width / 2)
          (gameHit.screen_height / 2) :=
  ⟨by decide, by decide,
   (c10_reset_rect envQuiet gameHit (by decide) (by decide)).2⟩
